import Mathlib

/-!
Shallow embedding of the client-side upload/search/display state machine of
`frontend/src/App.js` (AI-DFS). React component state becomes explicit record
state, `axios` calls become an environment of server responses, and the
observable side effects (issued requests, alerts, console errors, fetch
invocations) are collected in an explicit log.
-/

/-- A selected file reference (the opaque blob the user picked). -/
structure FileRef where
  name : String
  size : Nat
deriving Repr, DecidableEq

/-- The `ai_analysis` object attached to a file record. Every field is
optional; `none` models an absent JS property. -/
structure AIAnalysis where
  ai_model : Option String := none
  classification : Option String := none
  summary : Option String := none
  description : Option String := none
  key_topics : Option (List String) := none
  key_subjects : Option (List String) := none
  entities : Option (List String) := none
  tags : Option (List String) := none
  confidence : Option String := none
deriving Repr, DecidableEq

/-- `Object.keys(analysis).length`: the number of present fields. -/
def AIAnalysis.keysCount (a : AIAnalysis) : Nat :=
  (if a.ai_model.isSome then 1 else 0) +
  (if a.classification.isSome then 1 else 0) +
  (if a.summary.isSome then 1 else 0) +
  (if a.description.isSome then 1 else 0) +
  (if a.key_topics.isSome then 1 else 0) +
  (if a.key_subjects.isSome then 1 else 0) +
  (if a.entities.isSome then 1 else 0) +
  (if a.tags.isSome then 1 else 0) +
  (if a.confidence.isSome then 1 else 0)

/-- JS truthiness of an optional string property: present and nonempty. -/
def strTruthy : Option String → Bool
  | some s => s != ""
  | none => false

/-- A file record as returned by the backend. -/
structure FileRecord where
  id : String
  original_filename : String
  file_type : String
  file_size : Nat
  upload_timestamp : String
  tags : List String
  ai_analysis : Option AIAnalysis
deriving Repr, DecidableEq

/-- One `{_id, count}` entry of the analytics distributions. -/
structure TypeStat where
  _id : String
  count : Nat
deriving Repr, DecidableEq

/-- The analytics snapshot returned by `GET /api/analytics`. -/
structure AnalyticsSnapshot where
  total_files : Nat
  ai_analysis_rate : String
  file_type_distribution : List TypeStat
  top_tags : List TypeStat
deriving Repr, DecidableEq

/-- Local state of the `FileUploader` component. -/
structure UploaderState where
  file : Option FileRef
  tags : String
  isPublic : Bool
  uploading : Bool
  dragOver : Bool
deriving Repr, DecidableEq

/-- The multipart payload built by `handleUpload` before posting. -/
structure UploadPayload where
  file : FileRef
  tags : String
  is_public : Bool
deriving Repr, DecidableEq

/-- The search request body built by the `SearchBar`. -/
structure SearchParams where
  query : String
  tags : Option (List String)
deriving Repr, DecidableEq

/-- Outcome of the upload POST: a thrown network error, or a response whose
body carries `success` and the new file id. -/
inductive UploadOutcome where
  | netError
  | response (success : Bool) (id : String)
deriving Repr, DecidableEq

/-- Combined state of the `App` component and its `FileUploader` child. -/
structure AppState where
  files : List FileRecord
  analytics : Option AnalyticsSnapshot
  loading : Bool
  activeTab : String
  uploader : UploaderState
deriving Repr, DecidableEq

/-- Observable side effects accumulated by a run: issued upload requests,
`alert` popups, `console.error` lines, and invocation counts of the two
fetch helpers. -/
structure Log where
  loadFilesCalls : Nat
  loadAnalyticsCalls : Nat
  uploadRequests : List UploadPayload
  alerts : List String
  consoleErrors : List String
deriving Repr, DecidableEq

/-- The server as seen through axios: each endpoint either yields a value or
fails with a transport error. -/
structure Env where
  filesResp : Except String (List FileRecord)
  analyticsResp : Except String AnalyticsSnapshot
  searchResp : SearchParams → Except String (List FileRecord)
  uploadResp : UploadPayload → UploadOutcome

/-- `loadFiles` in `App`: fetch `GET /api/files`; on success replace the
collection; on failure log the error; `finally` clears the loading flag. -/
def loadFiles (env : Env) (s : AppState) (log : Log) : AppState × Log :=
  let log1 := { log with loadFilesCalls := log.loadFilesCalls + 1 }
  match env.filesResp with
  | .ok data => ({ s with files := data, loading := false }, log1)
  | .error _ =>
      ({ s with loading := false },
       { log1 with consoleErrors := log1.consoleErrors ++ ["Failed to load files:"] })

/-- `loadAnalytics` in `App`: fetch `GET /api/analytics`; on success replace
the snapshot; on failure log the error. -/
def loadAnalytics (env : Env) (s : AppState) (log : Log) : AppState × Log :=
  let log1 := { log with loadAnalyticsCalls := log.loadAnalyticsCalls + 1 }
  match env.analyticsResp with
  | .ok data => ({ s with analytics := some data }, log1)
  | .error _ =>
      (s, { log1 with consoleErrors := log1.consoleErrors ++ ["Failed to load analytics:"] })

/-- `handleUploadSuccess` in `App`: reload files and analytics, then switch
the active tab to the files view. -/
def handleUploadSuccess (env : Env) (s : AppState) (log : Log) : AppState × Log :=
  let r1 := loadFiles env s log
  let r2 := loadAnalytics env r1.1 r1.2
  ({ r2.1 with activeTab := "files" }, r2.2)

/-- `handleSearch` in `App`: post the search parameters; on success replace
the collection with the results; on failure log the error. -/
def handleSearch (env : Env) (params : SearchParams) (s : AppState) (log : Log) :
    AppState × Log :=
  match env.searchResp params with
  | .ok data => ({ s with files := data }, log)
  | .error _ =>
      (s, { log with consoleErrors := log.consoleErrors ++ ["Search failed:"] })

/-- `resetSearch` in `App`: just calls `loadFiles`. -/
def resetSearch (env : Env) (s : AppState) (log : Log) : AppState × Log :=
  loadFiles env s log

/-- The initial `useState` values of a freshly mounted `FileUploader`. -/
def initialUploader : UploaderState :=
  { file := none, tags := "", isPublic := false, uploading := false, dragOver := false }

/-- The tab buttons in `App`: `onClick` calls `setActiveTab`. The upload
view is conditionally rendered (`activeTab === 'upload' && ... <FileUploader/>`),
so leaving the upload tab unmounts `FileUploader` and React discards its
component state: the pending file, tags, visibility, and flags fall back to
their initial values when the component next mounts. Any other switch leaves
the uploader state alone, and no switch issues a request or other effect. -/
def clickTab (tab : String) (s : AppState) (log : Log) : AppState × Log :=
  if s.activeTab = "upload" ∧ tab ≠ "upload" then
    ({ s with activeTab := tab, uploader := initialUploader }, log)
  else
    ({ s with activeTab := tab }, log)

/-- `handleUpload` in `FileUploader`. If no file is selected it returns at
once. Otherwise it builds the multipart payload and posts it: a `success`
response invokes `onUploadSuccess` (wired to `handleUploadSuccess`) and
clears file, tags, and visibility; a response with `success` false does
nothing further; a thrown network error is logged and alerted. The
`finally` clause clears the uploading flag in every case. -/
def handleUpload (env : Env) (s : AppState) (log : Log) : AppState × Log :=
  match s.uploader.file with
  | none => (s, log)
  | some f =>
    let payload : UploadPayload := ⟨f, s.uploader.tags, s.uploader.isPublic⟩
    let log1 := { log with uploadRequests := log.uploadRequests ++ [payload] }
    match env.uploadResp payload with
    | .netError =>
        ({ s with uploader := { s.uploader with uploading := false } },
         { log1 with
            consoleErrors := log1.consoleErrors ++ ["Upload failed:"],
            alerts := log1.alerts ++ ["Upload failed. Please try again."] })
    | .response true _ =>
        let r := handleUploadSuccess env s log1
        ({ r.1 with uploader := { r.1.uploader with
            file := none, tags := "", isPublic := false, uploading := false } }, r.2)
    | .response false _ =>
        ({ s with uploader := { s.uploader with uploading := false } }, log1)

/-- What the `AIAnalysisCard` renders beyond the header: the labels of the
conditionally rendered sub-sections, in source order. A list-valued property
is truthy in JS even when empty; the AI-tags section additionally checks
`tags.length > 0`. -/
def aiSections (a : AIAnalysis) : List String :=
  (if strTruthy a.classification then ["Classification"] else []) ++
  (if strTruthy a.summary then ["Summary"] else []) ++
  (if strTruthy a.description then ["Description"] else []) ++
  (if a.key_topics.isSome then ["Key Topics"] else []) ++
  (if a.key_subjects.isSome then ["Key Subjects"] else []) ++
  (if a.entities.isSome then ["Entities"] else []) ++
  (match a.tags with
   | some ts => if ts.length > 0 then ["AI Tags"] else []
   | none => []) ++
  (if strTruthy a.confidence then ["Confidence"] else [])

/-- The rendered `AIAnalysisCard`: the model badge of the header plus the
rendered sub-section labels. -/
structure AICardRender where
  modelBadge : Option String
  sections : List String
deriving Repr, DecidableEq

/-- `AIAnalysisCard`: renders nothing when `analysis` is null or has no
keys; otherwise renders the header (with the model badge) and the truthy
sub-sections. -/
def renderAICard : Option AIAnalysis → Option AICardRender
  | none => none
  | some a => if a.keysCount = 0 then none else some ⟨a.ai_model, aiSections a⟩

/-- The `File Types` card of `Analytics`: rendered only when the
distribution is nonempty, and then truncated with `slice(0, 5)`. -/
def renderedFileTypes (a : AnalyticsSnapshot) : List TypeStat :=
  if a.file_type_distribution.length > 0 then a.file_type_distribution.take 5 else []

/-- The `Popular Tags` card of `Analytics`: rendered only when `top_tags`
is nonempty, and then truncated with `slice(0, 10)`. -/
def renderedTopTags (a : AnalyticsSnapshot) : List TypeStat :=
  if a.top_tags.length > 0 then a.top_tags.take 10 else []

/-! Concrete fixtures used by counterexamples and witnesses. -/

/-- A concrete 2 MB selected file. -/
def fileRef0 : FileRef := ⟨"report.pdf", 2097152⟩

/-- Uploader state with a file selected, tags entered, visibility public. -/
def uploaderSel : UploaderState :=
  { file := some fileRef0, tags := "work, urgent", isPublic := true,
    uploading := false, dragOver := false }

/-- App state with a pending upload ready to submit. -/
def stSel : AppState :=
  { files := [], analytics := none, loading := true, activeTab := "upload",
    uploader := uploaderSel }

/-- App state with no file selected. -/
def stNoFile : AppState :=
  { files := [], analytics := none, loading := true, activeTab := "upload",
    uploader := { file := none, tags := "", isPublic := false,
                  uploading := false, dragOver := false } }

/-- The empty effect log. -/
def emptyLog : Log := ⟨0, 0, [], [], []⟩

/-- A concrete file record, as a server listing entry. -/
def rec0 : FileRecord :=
  { id := "abc", original_filename := "report.pdf", file_type := "application/pdf",
    file_size := 2097152, upload_timestamp := "2025-01-01T00:00:00Z",
    tags := ["work", "urgent"], ai_analysis := none }

/-- A concrete analytics snapshot. -/
def snap0 : AnalyticsSnapshot :=
  { total_files := 1, ai_analysis_rate := "100%",
    file_type_distribution := [⟨"application/pdf", 1⟩], top_tags := [⟨"work", 1⟩] }

/-- Server where the upload responds with `success` false. -/
def envSuccessFalse : Env :=
  { filesResp := .ok [rec0], analyticsResp := .ok snap0,
    searchResp := fun _ => .ok [], uploadResp := fun _ => .response false "abc" }

/-- Server where the upload throws a network error. -/
def envNet : Env :=
  { filesResp := .ok [rec0], analyticsResp := .ok snap0,
    searchResp := fun _ => .ok [], uploadResp := fun _ => .netError }

/-- Server where every request succeeds. -/
def envOk : Env :=
  { filesResp := .ok [rec0], analyticsResp := .ok snap0,
    searchResp := fun _ => .ok [], uploadResp := fun _ => .response true "abc" }

/-- Server where every fetch fails with a transport error. -/
def envDown : Env :=
  { filesResp := .error "down", analyticsResp := .error "down",
    searchResp := fun _ => .error "down", uploadResp := fun _ => .netError }

/-- A concrete search request. -/
def params0 : SearchParams := ⟨"invoice", none⟩

/-- An `ai_analysis` object whose only present field is the model name. -/
def modelOnly (m : String) : AIAnalysis := { ai_model := some m }

/-! Claim theorems. -/

/-- C1 counterexample: with a file selected, a response reporting
`success` false issues the request but surfaces no user-visible failure
notice at all — the alerts list stays empty, contradicting the claim that
this case behaves identically to a transport failure. -/
theorem c1_success_false_no_alert :
    stSel.uploader.file = some fileRef0 ∧
    (handleUpload envSuccessFalse stSel emptyLog).2.uploadRequests =
      [⟨fileRef0, "work, urgent", true⟩] ∧
    (handleUpload envSuccessFalse stSel emptyLog).2.alerts = [] := by
  exact ⟨rfl, rfl, rfl⟩

/-- C1 (amended): on a network error the coordinator surfaces the failure
alert and leaves the selected file and metadata intact; on a `success` false
response it likewise leaves the file and metadata intact but surfaces no
notice. In both cases the uploading flag ends false; there is no separate
persistent error status. -/
theorem c1_upload_failure_modes (env : Env) (s : AppState) (log : Log) (f : FileRef)
    (hf : s.uploader.file = some f) :
    (env.uploadResp ⟨f, s.uploader.tags, s.uploader.isPublic⟩ = .netError →
      (handleUpload env s log).1.uploader.file = some f ∧
      (handleUpload env s log).1.uploader.tags = s.uploader.tags ∧
      (handleUpload env s log).1.uploader.isPublic = s.uploader.isPublic ∧
      (handleUpload env s log).1.uploader.uploading = false ∧
      (handleUpload env s log).2.alerts = log.alerts ++ ["Upload failed. Please try again."]) ∧
    (∀ d : String,
      env.uploadResp ⟨f, s.uploader.tags, s.uploader.isPublic⟩ = .response false d →
      (handleUpload env s log).1.uploader.file = some f ∧
      (handleUpload env s log).1.uploader.tags = s.uploader.tags ∧
      (handleUpload env s log).1.uploader.isPublic = s.uploader.isPublic ∧
      (handleUpload env s log).1.uploader.uploading = false ∧
      (handleUpload env s log).2.alerts = log.alerts) := by
  constructor
  · intro hresp
    simp [handleUpload, hf, hresp]
  · intro d hresp
    simp [handleUpload, hf, hresp]

/-- Witness for the amended C1: both failure modes at concrete inputs. -/
theorem c1_upload_failure_modes_witness :
    ((handleUpload envNet stSel emptyLog).1.uploader.file = some fileRef0 ∧
     (handleUpload envNet stSel emptyLog).2.alerts = ["Upload failed. Please try again."]) ∧
    ((handleUpload envSuccessFalse stSel emptyLog).1.uploader.file = some fileRef0 ∧
     (handleUpload envSuccessFalse stSel emptyLog).2.alerts = []) := by
  refine ⟨⟨?_, ?_⟩, ⟨?_, ?_⟩⟩
  · exact ((c1_upload_failure_modes envNet stSel emptyLog fileRef0 rfl).1 rfl).1
  · exact ((c1_upload_failure_modes envNet stSel emptyLog fileRef0 rfl).1 rfl).2.2.2.2
  · exact ((c1_upload_failure_modes envSuccessFalse stSel emptyLog fileRef0 rfl).2 "abc" rfl).1
  · exact ((c1_upload_failure_modes envSuccessFalse stSel emptyLog fileRef0 rfl).2 "abc" rfl).2.2.2.2

/-- C2: with a file selected and a `success` true response, the pending
upload is cleared entirely (file, tags, visibility back to initial values),
the active tab becomes the files view, `loadFiles` and `loadAnalytics` are
each invoked exactly once, and exactly one multipart payload carrying the
tags string and visibility flag was posted. -/
theorem c2_upload_success (env : Env) (s : AppState) (log : Log) (f : FileRef) (d : String)
    (hf : s.uploader.file = some f)
    (hresp : env.uploadResp ⟨f, s.uploader.tags, s.uploader.isPublic⟩ = .response true d) :
    (handleUpload env s log).1.uploader.file = none ∧
    (handleUpload env s log).1.uploader.tags = "" ∧
    (handleUpload env s log).1.uploader.isPublic = false ∧
    (handleUpload env s log).1.activeTab = "files" ∧
    (handleUpload env s log).2.loadFilesCalls = log.loadFilesCalls + 1 ∧
    (handleUpload env s log).2.loadAnalyticsCalls = log.loadAnalyticsCalls + 1 ∧
    (handleUpload env s log).2.uploadRequests =
      log.uploadRequests ++ [⟨f, s.uploader.tags, s.uploader.isPublic⟩] := by
  simp only [handleUpload, hf, hresp]
  unfold handleUploadSuccess loadFiles loadAnalytics
  cases env.filesResp <;> cases env.analyticsResp <;> simp

/-- Witness for C2 at concrete inputs: the 2 MB file with tags
"work, urgent" and public visibility uploaded against an all-success
server. -/
theorem c2_upload_success_witness :
    (handleUpload envOk stSel emptyLog).1.uploader.file = none ∧
    (handleUpload envOk stSel emptyLog).1.activeTab = "files" ∧
    (handleUpload envOk stSel emptyLog).2.loadFilesCalls = 1 ∧
    (handleUpload envOk stSel emptyLog).2.loadAnalyticsCalls = 1 ∧
    (handleUpload envOk stSel emptyLog).2.uploadRequests =
      [⟨fileRef0, "work, urgent", true⟩] := by
  have h := c2_upload_success envOk stSel emptyLog fileRef0 "abc" rfl rfl
  exact ⟨h.1, h.2.2.2.1, h.2.2.2.2.1, h.2.2.2.2.2.1, h.2.2.2.2.2.2⟩

/-- C3: a network failure during submit leaves the selected file and the
tags unchanged, so the user can retry without re-selecting. -/
theorem c3_netfail_preserves_selection (env : Env) (s : AppState) (log : Log) (f : FileRef)
    (hf : s.uploader.file = some f)
    (hresp : env.uploadResp ⟨f, s.uploader.tags, s.uploader.isPublic⟩ = .netError) :
    (handleUpload env s log).1.uploader.file = some f ∧
    (handleUpload env s log).1.uploader.tags = s.uploader.tags := by
  simp [handleUpload, hf, hresp]

/-- Witness for C3 at concrete inputs. -/
theorem c3_netfail_preserves_selection_witness :
    (handleUpload envNet stSel emptyLog).1.uploader.file = some fileRef0 ∧
    (handleUpload envNet stSel emptyLog).1.uploader.tags = "work, urgent" := by
  exact c3_netfail_preserves_selection envNet stSel emptyLog fileRef0 rfl rfl

/-- C4: when the files fetch, the analytics fetch, and the search request
all fail with transport errors, each call site retains the previously
displayed collection or snapshot unchanged and only appends a console
error; no alert is raised. -/
theorem c4_fetch_failure_stale (env : Env) (s : AppState) (log : Log)
    (e1 e2 e3 : String) (params : SearchParams)
    (h1 : env.filesResp = .error e1)
    (h2 : env.analyticsResp = .error e2)
    (h3 : env.searchResp params = .error e3) :
    (loadFiles env s log).1.files = s.files ∧
    (loadFiles env s log).2.consoleErrors = log.consoleErrors ++ ["Failed to load files:"] ∧
    (loadFiles env s log).2.alerts = log.alerts ∧
    (loadAnalytics env s log).1.analytics = s.analytics ∧
    (loadAnalytics env s log).2.consoleErrors =
      log.consoleErrors ++ ["Failed to load analytics:"] ∧
    (loadAnalytics env s log).2.alerts = log.alerts ∧
    (handleSearch env params s log).1.files = s.files ∧
    (handleSearch env params s log).2.consoleErrors = log.consoleErrors ++ ["Search failed:"] ∧
    (handleSearch env params s log).2.alerts = log.alerts := by
  simp [loadFiles, loadAnalytics, handleSearch, h1, h2, h3]

/-- Witness for C4: all three fetches failing against a down server. -/
theorem c4_fetch_failure_stale_witness :
    (loadFiles envDown stSel emptyLog).1.files = stSel.files ∧
    (loadAnalytics envDown stSel emptyLog).1.analytics = stSel.analytics ∧
    (handleSearch envDown params0 stSel emptyLog).1.files = stSel.files := by
  have h := c4_fetch_failure_stale envDown stSel emptyLog "down" "down" "down" params0 rfl rfl rfl
  exact ⟨h.1, h.2.2.2.1, h.2.2.2.2.2.2.1⟩

/-- C5: `resetSearch` is definitionally `loadFiles`; after a `loadFiles`
that produced collection `L`, a search followed immediately by a reset
(against the unchanged server listing) restores exactly that collection. -/
theorem c5_reset_restores (env : Env) (s : AppState) (log : Log)
    (L : List FileRecord) (params : SearchParams)
    (hL : env.filesResp = .ok L) :
    resetSearch = loadFiles ∧
    (loadFiles env s log).1.files = L ∧
    (resetSearch env
        (handleSearch env params (loadFiles env s log).1 (loadFiles env s log).2).1
        (handleSearch env params (loadFiles env s log).1 (loadFiles env s log).2).2).1.files
      = (loadFiles env s log).1.files := by
  refine ⟨rfl, ?_, ?_⟩
  · simp [loadFiles, hL]
  · cases hS : env.searchResp params <;>
      simp [resetSearch, loadFiles, handleSearch, hL, hS]

/-- Witness for C5 at concrete inputs. -/
theorem c5_reset_restores_witness :
    (loadFiles envOk stSel emptyLog).1.files = [rec0] ∧
    (resetSearch envOk
        (handleSearch envOk params0 (loadFiles envOk stSel emptyLog).1
          (loadFiles envOk stSel emptyLog).2).1
        (handleSearch envOk params0 (loadFiles envOk stSel emptyLog).1
          (loadFiles envOk stSel emptyLog).2).2).1.files
      = (loadFiles envOk stSel emptyLog).1.files := by
  have h := c5_reset_restores envOk stSel emptyLog [rec0] params0 rfl
  exact ⟨h.2.1, h.2.2⟩

/-- C6: with no file selected, submit is a complete no-op: state and
effect log are both returned unchanged. -/
theorem c6_submit_noop (env : Env) (s : AppState) (log : Log)
    (hf : s.uploader.file = none) :
    handleUpload env s log = (s, log) := by
  simp [handleUpload, hf]

/-- Witness for C6 at concrete inputs. -/
theorem c6_submit_noop_witness :
    handleUpload envNet stNoFile emptyLog = (stNoFile, emptyLog) :=
  c6_submit_noop envNet stNoFile emptyLog rfl

/-- C7: the analytics view renders exactly the first `min(length, 5)`
entries of the file-type distribution and the first `min(length, 10)`
entries of the top tags — the rendered lists are literal prefixes of the
snapshot's full lists. -/
theorem c7_analytics_truncation (a : AnalyticsSnapshot) :
    renderedFileTypes a = a.file_type_distribution.take 5 ∧
    renderedTopTags a = a.top_tags.take 10 ∧
    (renderedFileTypes a).length = min a.file_type_distribution.length 5 ∧
    (renderedTopTags a).length = min a.top_tags.length 10 := by
  have h1 : renderedFileTypes a = a.file_type_distribution.take 5 := by
    unfold renderedFileTypes
    split
    · rfl
    · rename_i h
      cases hz : a.file_type_distribution with
      | nil => rfl
      | cons x xs => rw [hz] at h; simp at h
  have h2 : renderedTopTags a = a.top_tags.take 10 := by
    unfold renderedTopTags
    split
    · rfl
    · rename_i h
      cases hz : a.top_tags with
      | nil => rfl
      | cons x xs => rw [hz] at h; simp at h
  refine ⟨h1, h2, ?_, ?_⟩
  · rw [h1, List.length_take]; omega
  · rw [h2, List.length_take]; omega

/-- C8: a null `ai_analysis` renders no AI analysis card at all; an
analysis object whose only present field is the model name renders the
card with just the model badge and no labeled sub-sections. -/
theorem c8_ai_card_rendering (m : String) :
    renderAICard none = none ∧
    renderAICard (some (modelOnly m)) = some ⟨some m, []⟩ := by
  constructor
  · rfl
  · rfl

/-- C9 counterexample: with a file pending on the upload tab, clicking the
files tab does more than change the active-tab value — unmounting the
uploader discards the pending upload, so the uploader state is modified. -/
theorem c9_tab_switch_loses_pending :
    stSel.activeTab = "upload" ∧
    stSel.uploader.file = some fileRef0 ∧
    (clickTab "files" stSel emptyLog).1.uploader ≠ stSel.uploader ∧
    (clickTab "files" stSel emptyLog).1.uploader.file = none := by
  refine ⟨rfl, rfl, ?_, by decide⟩
  decide

/-- C9 (amended): a user-initiated tab switch issues no fetch and leaves
the file collection, analytics snapshot, loading flag, and effect log
untouched, and the active tab becomes the clicked tab; but a switch leaving
the upload tab unmounts the uploader and resets the pending upload to its
initial values, while every other switch leaves the uploader unchanged.
The one fetch-triggering transition is `handleUploadSuccess`, which forces
the files tab and invokes `loadFiles` and `loadAnalytics` exactly once
each. -/
theorem c9_tab_switch_frame (tab : String) (s : AppState) (log : Log) (env : Env) :
    (clickTab tab s log).1.activeTab = tab ∧
    (clickTab tab s log).1.files = s.files ∧
    (clickTab tab s log).1.analytics = s.analytics ∧
    (clickTab tab s log).1.loading = s.loading ∧
    (clickTab tab s log).2 = log ∧
    (s.activeTab = "upload" → tab ≠ "upload" →
      (clickTab tab s log).1.uploader = initialUploader) ∧
    (s.activeTab ≠ "upload" ∨ tab = "upload" →
      (clickTab tab s log).1.uploader = s.uploader) ∧
    (handleUploadSuccess env s log).1.activeTab = "files" ∧
    (handleUploadSuccess env s log).2.loadFilesCalls = log.loadFilesCalls + 1 ∧
    (handleUploadSuccess env s log).2.loadAnalyticsCalls = log.loadAnalyticsCalls + 1 := by
  have hU : (handleUploadSuccess env s log).1.activeTab = "files" ∧
      (handleUploadSuccess env s log).2.loadFilesCalls = log.loadFilesCalls + 1 ∧
      (handleUploadSuccess env s log).2.loadAnalyticsCalls = log.loadAnalyticsCalls + 1 := by
    unfold handleUploadSuccess loadFiles loadAnalytics
    cases env.filesResp <;> cases env.analyticsResp <;> simp
  refine ⟨?_, ?_, ?_, ?_, ?_, ?_, ?_, hU.1, hU.2.1, hU.2.2⟩
  · unfold clickTab; split <;> rfl
  · unfold clickTab; split <;> rfl
  · unfold clickTab; split <;> rfl
  · unfold clickTab; split <;> rfl
  · unfold clickTab; split <;> rfl
  · intro h1 h2
    unfold clickTab
    rw [if_pos ⟨h1, h2⟩]
  · intro h
    unfold clickTab
    rw [if_neg (fun hc => h.elim (fun hna => hna hc.1) (fun ht => hc.2 ht))]

/-- Witness for the amended C9: leaving the upload tab resets the pending
upload; re-clicking the upload tab preserves it; no effect is logged. -/
theorem c9_tab_switch_frame_witness :
    (clickTab "files" stSel emptyLog).1.uploader = initialUploader ∧
    (clickTab "upload" stSel emptyLog).1.uploader = stSel.uploader ∧
    (clickTab "files" stSel emptyLog).2 = emptyLog := by
  refine ⟨?_, ?_, ?_⟩
  · exact (c9_tab_switch_frame "files" stSel emptyLog envOk).2.2.2.2.2.1 rfl (by decide)
  · exact (c9_tab_switch_frame "upload" stSel emptyLog envOk).2.2.2.2.2.2.1 (Or.inr rfl)
  · exact (c9_tab_switch_frame "files" stSel emptyLog envOk).2.2.2.2.1

/-- C10: whenever a file is selected, submit always ends with the uploading
flag false again — on success, on a `success` false response, and on a
thrown network error alike — so the submit button is never left disabled. -/
theorem c10_uploading_reset (env : Env) (s : AppState) (log : Log) (f : FileRef)
    (hf : s.uploader.file = some f) :
    (handleUpload env s log).1.uploader.uploading = false := by
  cases h : env.uploadResp ⟨f, s.uploader.tags, s.uploader.isPublic⟩ with
  | netError => simp [handleUpload, hf, h]
  | response success d => cases success <;> simp [handleUpload, hf, h]

/-- Witness for C10 at concrete inputs. -/
theorem c10_uploading_reset_witness :
    (handleUpload envNet stSel emptyLog).1.uploader.uploading = false :=
  c10_uploading_reset envNet stSel emptyLog fileRef0 rfl
